import Mathlib

/-!
Shallow embedding of the fluxclient repository (files
`src/fluxclient/robot/v0002.py` and `src/fluxclient/upnp/base.py`).

Text is modelled as `List Char` (the result of Python `str` decoding) and
raw wire data as `List Nat` (byte values).  Python string/bytes helpers
(`str.split`, `bytes.split(sep, 1)`, `decode("ascii", "ignore")`) are
given explicit operational models with the same semantics as CPython.
-/

namespace FluxClient

/-- Model of Python `s.split(sep)` for a one-character separator `sep`:
empty fields are kept, and splitting the empty string yields `[[]]`
(Python: `"".split(" ") == [""]`). -/
def pySplit (sep : Char) : List Char → List (List Char)
  | [] => [[]]
  | c :: cs =>
    if c = sep then
      [] :: pySplit sep cs
    else
      match pySplit sep cs with
      | t :: ts => (c :: t) :: ts
      | [] => [[c]]

/-- Model of Python `buf.split(b"\x00", 1)` restricted to its arity:
`some (before, after)` when a NUL byte occurs (split at the first one),
`none` when no NUL occurs (Python then returns a single-element list, so
unpacking it into two variables raises `ValueError`). -/
def splitOnceNul : List Nat → Option (List Nat × List Nat)
  | [] => none
  | 0 :: rest => some ([], rest)
  | (b + 1) :: rest => (splitOnceNul rest).map (fun p => ((b + 1) :: p.1, p.2))

/-- Model of Python `bytes.decode("ascii", "ignore")`: bytes below 128
become characters, all others are dropped.  (The source sometimes uses
`decode("utf8", "ignore")`; the two agree on ASCII-only data, which is
all the verified claims exercise.) -/
def asciiDecodeIgnore (bs : List Nat) : List Char :=
  bs.filterMap (fun b => if b < 128 then some (Char.ofNat b) else none)

/-- Model of Python `int(s)` restricted to unsigned decimal digit strings
(`none` models a raised `ValueError`). -/
def parseNatAscii (s : List Char) : Option Nat :=
  if s ≠ [] ∧ s.all Char.isDigit then
    some (s.foldl (fun a c => a * 10 + (c.toNat - 48)) 0)
  else
    none

/-- Python exceptions raised by the embedded code.  `remoteError code args`
models `RuntimeError(*parts)` as raised by `raise_error` (first positional
argument = error code, rest = arguments, per the repository's error
convention); `runtimeError` models a single-argument `RuntimeError`. -/
inductive PyError where
  | remoteError (code : List Char) (args : List (List Char))
  | runtimeError (msg : List Char)
  | robotError (msg : List Char)
  | typeError
  | valueError
  | structError
  | assertionError
  | timeoutError (msg : List Char)
  | brokenPipe
  deriving DecidableEq, Repr

/-- `raise_error` (v0002.py lines 20-24).  `ret.startswith("error ")`
yields `RuntimeError(*(ret.split(" ")[1:]))` — first token after the
prefix is the code, the remaining tokens the arguments; otherwise
`RuntimeError("UNKNOW_ERROR", ret)`. -/
def raise_error (ret : List Char) : PyError :=
  if List.isPrefixOf "error ".data ret then
    let parts := (pySplit ' ' ret).drop 1
    .remoteError (parts.headD []) parts.tail
  else
    .remoteError "UNKNOW_ERROR".data [ret]

/-- `_send_cmd` length prefix (v0002.py lines 69-71): `struct.pack("<H", l)`
with `l = len(buf) + 2`, little-endian.  `struct.pack` raises for
`l ≥ 2^16`; the claims only quantify over representable lengths, so the
encoding is written with the machine truncation `% 256` explicit. -/
def encodeLE16 (n : Nat) : List Nat :=
  [n % 256, n / 256 % 256]

/-- `_send_cmd` (v0002.py lines 69-71): the frame put on the wire for a
payload `buf` is `pack("<H", len(buf) + 2) ++ buf`. -/
def frame (buf : List Nat) : List Nat :=
  encodeLE16 (buf.length + 2) ++ buf

/-- `get_resp` (v0002.py lines 73-81) on a byte stream: read 2 bytes, take
them as a little-endian `message_length`, then read exactly
`message_length` further bytes (`MSG_WAITALL`).  `none` models the cases
in which no complete response can be produced (fewer than 2 bytes, or
fewer than `message_length` bytes, ever arrive: the Python code then
blocks, raises `TimeoutError` from the `select`, or raises
`socket.error(EPIPE)` — in no case does it return a payload). -/
def get_resp (s : List Nat) : Option (List Nat × List Nat) :=
  match s with
  | b0 :: b1 :: rest =>
    let message_length := b0 + 256 * b1
    if rest.length < message_length then none
    else some (rest.take message_length, rest.drop message_length)
  | _ => none

/-- Receive loop of `recv_binary` (v0002.py lines 92-95):
`while left > 0: left -= buf.write(self.sock.recv(min(4096, left)))`.
The stream is the list of bytes the peer still delivers; once it is
exhausted every further `recv` returns zero bytes (closed peer), which
the loop subtracts as 0 from `left`.  `fuel` bounds the number of loop
iterations so non-termination is observable: a result of `none` for
every fuel value means the Python loop never exits. -/
def recv_binary_loop (fuel left : Nat) (stream acc : List Nat) :
    Option (List Nat × List Nat) :=
  match fuel with
  | 0 => none
  | fuel + 1 =>
    if left = 0 then some (acc, stream)
    else
      -- one iteration: chunk = self.sock.recv(min(4096, left)), i.e.
      -- `stream.take (min 4096 left)`, is appended to the buffer and its
      -- byte count subtracted from `left`
      recv_binary_loop fuel (left - (stream.take (min 4096 left)).length)
        (stream.drop (stream.take (min 4096 left)).length)
        (acc ++ stream.take (min 4096 left))

/-- `recv_binary` (v0002.py lines 87-96): split the header on spaces into
exactly `mn, mimetype, ssize` (a different arity raises `ValueError`),
assert `mn == "binary"`, parse the size, then run the receive loop.
The inner `none` reports that the loop did not terminate within `fuel`
iterations. -/
def recv_binary (fuel : Nat) (binary_header : List Char) (stream : List Nat) :
    Except PyError (Option ((List Char × List Nat) × List Nat)) :=
  match pySplit ' ' binary_header with
  | [mn, mimetype, ssize] =>
    if mn ≠ "binary".data then .error .assertionError
    else
      match parseNatAscii ssize with
      | none => .error .valueError
      | some size =>
        .ok ((recv_binary_loop fuel size stream []).map
          (fun r => ((mimetype, r.1), r.2)))
  | _ => .error .valueError

/-- Entry parsing of `list_files` (v0002.py lines 115-122): every
NUL-separated node starting with `D` yields `(true, name)` (folder),
starting with `F` yields `(false, name)` (file); other nodes are
skipped. -/
def parseEntries (nodes : List (List Char)) : List (Bool × List Char) :=
  nodes.filterMap (fun node =>
    match node with
    | 'D' :: name => some (true, name)
    | 'F' :: name => some (false, name)
    | _ => none)

/-- `list_files` (v0002.py lines 106-124), as a function of the three
decoded response frames the device sends.  If the first frame is not
`"continue"` the raw frame text is passed to `raise_error`; if the
trailing frame is not `"ok"` the generator raises
`raise_error("error PROTOCOL_ERROR NOT_OK")` before yielding anything;
only otherwise are the parsed entries exposed. -/
def list_files (resp files last_resp : List Char) :
    Except PyError (List (Bool × List Char)) :=
  if resp = "continue".data then
    if last_resp ≠ "ok".data then
      .error (raise_error "error PROTOCOL_ERROR NOT_OK".data)
    else
      .ok (parseEntries (pySplit '\x00' files))
  else
    .error (raise_error resp)

/-- Send loop of `upload_stream` (v0002.py lines 183-191).  The source is
modelled as the list of successive `stream.read(4096)` results (chunks);
once the list is exhausted every further read returns zero bytes.  A
zero-length read while `sent < length` raises
`RobotError("Upload file error")`; otherwise the chunk's length is added
to `sent`.  Returns the final `sent` value on normal exit. -/
def send_loop (length : Nat) : Nat → List (List Nat) → Except PyError Nat
  | sent, chunks =>
    if sent < length then
      match chunks with
      | [] => .error (.robotError "Upload file error".data)
      | c :: rest =>
        if c.length = 0 then .error (.robotError "Upload file error".data)
        else send_loop length (sent + c.length) rest
    else .ok sent

/-- `upload_stream` (v0002.py lines 170-202) after the negotiation frame
`upload_ret` has been received.  A non-`"continue"` negotiation raises
`RuntimeError(upload_ret)`.  After the send loop, line 197 calls
`progress_callback(self, sent, length)` outside the
`if progress_callback` guard, so when no callback was supplied
(`has_callback = false`) calling `None` raises `TypeError` before the
final response frame is read.  (The call at lines 193-195 is guarded by
`if progress_callback and ...` and is effect-only, so it is elided.)
Finally the response bytes must equal `b"ok"` ( `[111, 107]` ), else
`raise_error` runs on their decoded text. -/
def upload_stream (upload_ret : List Char) (chunks : List (List Nat))
    (length : Nat) (has_callback : Bool) (final_ret : List Nat) :
    Except PyError Unit :=
  if upload_ret ≠ "continue".data then .error (.runtimeError upload_ret)
  else
    match send_loop length 0 chunks with
    | .error e => .error e
    | .ok _sent =>
      if has_callback = false then .error .typeError
      else if final_ret = [111, 107] then .ok ()
      else .error (raise_error (asciiDecodeIgnore final_ret))

/-- Resynchronization loop of `quit_raw_mode` (v0002.py lines 349-357):
```
sync = 0
while True:
    ret = ord(self.sock.recv(1))
    if sync > 8:
        if ret > 0: break
    else:
        if ret == 0: sync += 1
```
The argument list is the byte stream still to arrive; `some rest` is the
stream remaining after the `break`, `none` means the loop consumed the
whole stream without breaking (the next `recv(1)` then blocks, or —
when the peer has closed — returns `b""` and `ord` raises `TypeError`;
in no case does a framed read follow).  Note the loop counts zero bytes
cumulatively: a nonzero byte seen while `sync <= 8` is ignored and does
not reset `sync`. -/
def quit_raw_sync (sync : Nat) : List Nat → Option (List Nat)
  | [] => none
  | ret :: rest =>
    if sync > 8 then
      if ret > 0 then some rest else quit_raw_sync sync rest
    else
      if ret = 0 then quit_raw_sync (sync + 1) rest
      else quit_raw_sync sync rest

/-- Interpretation step added by the `ok_or_error` decorator
(v0002.py lines 27-34): a decoded response equal to `"ok"` is returned,
anything else goes to `raise_error`. -/
def ok_or_error (ret : List Char) : Except PyError (List Char) :=
  if ret = "ok".data then .ok ret else .error (raise_error ret)

/-- The framed response read performed after resynchronization
(`return self.get_resp()` under `@ok_or_error`): one ordinary framed
read on the remaining stream, its payload decoded and interpreted as
ok/error.  `none` models a framed read that can never complete. -/
def read_framed_reply (rest : List Nat) : Option (Except PyError (List Char)) :=
  (get_resp rest).map (fun r => ok_or_error (asciiDecodeIgnore r.1))

/-- `quit_raw_mode` (v0002.py lines 346-358) as a function of the byte
stream arriving after `b"quit"` is sent: run the resynchronization loop,
then one framed response read interpreted as ok/error.  `none` models
an exchange that never produces a result. -/
def quit_raw_mode (stream : List Nat) : Option (Except PyError (List Char)) :=
  match quit_raw_sync 0 stream with
  | none => none
  | some rest => read_framed_reply rest

/-- The encrypted session produced by a successful handshake
(v0002.py line 59): symmetric key = first 32 decrypted bytes,
IV = next 16. -/
structure Session where
  key : List Nat
  iv : List Nat
  deriving DecidableEq, Repr

/-- `FluxRobotV0002.__init__` (v0002.py lines 38-61) as a function of the
data the peer sends: the 4096-byte initial buffer, the decoded NUL-stripped
16-byte status string, and the RSA-decrypted AES init block.  `verify` is
the CryptoFacility signature check available to the code; the source NEVER
calls it — when `server_key` is supplied it only logs
`"Warning: server key checking not implement!"` (line 44) and proceeds.
If the status is `"OK"` the encrypted session is built from the AES init
block; otherwise `RuntimeError("Handshake failed: ...")` is raised. -/
def handshake (verify : List Nat → List Nat → List Nat → Bool)
    (server_key : Option (List Nat)) (initial_buf : List Nat)
    (status : List Char) (aes_init : List Nat) : Except PyError Session :=
  -- sign = buf[8:-128], randbytes = buf[-128:] (line 41); computed, never verified
  let _sign := (initial_buf.drop 8).take (initial_buf.length - 136)
  let _randbytes := initial_buf.drop (initial_buf.length - 128)
  -- `if server_key:` (lines 43-46) branches only between two log messages
  let _ := verify
  let _ := server_key
  if status = "OK".data then
    .ok ⟨aes_init.take 32, (aes_init.drop 32).take 16⟩
  else
    .error (.runtimeError ("Handshake failed: ".data ++ status))

/-! ### upnp/base.py -/

/-- `UpnpBase._parse_response` (base.py lines 133-152).  Line 134 runs
first: `payload, signature = buf[2:].split(b"\x00", 1)` — when `buf[2:]`
contains no NUL the split yields a single part and the unpacking raises
`ValueError`.  Only then are code/status unpacked from `buf[:2]`, a
non-matching code discarded (`.ok none`), a nonzero status raised as
`RuntimeError(payload)`, the payload JSON-decoded and the signature
validated (self-validated for the RSA-key bootstrap response code).
`json_loads` and the two validators stand for the external JSON and
CryptoFacility collaborators. -/
def parse_response (json_loads : List Nat → Option (List Char))
    (validate_self : List Char → List Nat → List Nat → Bool)
    (validate_remote : List Nat → List Nat → Bool)
    (code_response_rsa_key : Nat) (buf : List Nat) (resp_code : Nat) :
    Except PyError (Option (List Char)) :=
  match splitOnceNul (buf.drop 2) with
  | none => .error .valueError
  | some (payload, signature) =>
    match buf with
    | code :: status :: _ =>
      if code ≠ resp_code then .ok none
      else if status ≠ 0 then .error (.runtimeError (asciiDecodeIgnore payload))
      else
        match json_loads payload with
        | none => .error .valueError
        | some resp =>
          if resp_code = code_response_rsa_key then
            if validate_self resp payload signature then .ok (some resp)
            else .ok none
          else
            if validate_remote payload signature then .ok (some resp)
            else .ok none
    | _ => .error .structError

/-- Receive loop of `UpnpBase.make_request` (base.py lines 116-122) over
the list of UDP datagrams that arrive before the readiness timeout:
each datagram is parsed; an exception from `_parse_response` propagates
out of `make_request` (there is no try/except around line 119); a truthy
parse result is returned; a falsy one keeps waiting.  An exhausted list
models the `select` timeout, after which the loop exits and the Python
function implicitly returns `None`. -/
def make_request (json_loads : List Nat → Option (List Char))
    (validate_self : List Char → List Nat → List Nat → Bool)
    (validate_remote : List Nat → List Nat → Bool)
    (code_response_rsa_key : Nat) :
    List (List Nat) → Nat → Except PyError (Option (List Char))
  | [], _ => .ok none
  | d :: rest, resp_code =>
    match parse_response json_loads validate_self validate_remote
        code_response_rsa_key d resp_code with
    | .error e => .error e
    | .ok (some r) => .ok (some r)
    | .ok none =>
      make_request json_loads validate_self validate_remote
        code_response_rsa_key rest resp_code

/-- Recursion of `UpnpBase.fetch_publickey` (base.py lines 93-103):
attempt number `idx` performs one `make_request`; a truthy response is
returned; otherwise, while `retry > 0`, recurse with `retry - 1`; with
`retry = 0` exhausted, raise `RuntimeError("TIMEOUT", "fetch public key")`.
`attempts idx` is the (possibly absent) validated response of the
`idx`-th request attempt. -/
def fetch_publickey_from (attempts : Nat → Option (List Char)) :
    Nat → Nat → Except PyError (List Char)
  | idx, retry =>
    match attempts idx with
    | some resp => .ok resp
    | none =>
      match retry with
      | r + 1 => fetch_publickey_from attempts (idx + 1) r
      | 0 => .error (.remoteError "TIMEOUT".data ["fetch public key".data])

/-- `fetch_publickey` with its default `retry=20`, starting at the first
attempt. -/
def fetch_publickey (attempts : Nat → Option (List Char)) :
    Except PyError (List Char) :=
  fetch_publickey_from attempts 0 20

end FluxClient

namespace FluxClient

/-! ### Lemmas about the Python string helpers -/

theorem pySplit_ne_nil (sep : Char) (s : List Char) : pySplit sep s ≠ [] := by
  induction s with
  | nil => simp [pySplit]
  | cons c cs ih =>
    unfold pySplit
    by_cases h : c = sep
    · simp [h]
    · simp only [if_neg h]
      cases hs : pySplit sep cs with
      | nil => simp
      | cons t ts => simp

theorem pySplit_append_sep (sep : Char) (a b : List Char) (ha : sep ∉ a) :
    pySplit sep (a ++ sep :: b) = a :: pySplit sep b := by
  induction a with
  | nil => simp [pySplit]
  | cons c a' ih =>
    have hc : c ≠ sep := fun h => ha (h ▸ List.mem_cons_self c a')
    have ha' : sep ∉ a' := fun h => ha (List.mem_cons_of_mem c h)
    rw [List.cons_append, pySplit, if_neg hc, ih ha']

/-! ### Claim theorems -/

/-- Claim C1, counterexample.  The claim asserts
`unframing(framing(P)) = P`: reading back the frame produced for the
payload `P = [1, 2, 3]` should recover exactly `[1, 2, 3]` with nothing
left over, i.e. `get_resp (frame [1,2,3]) = some ([1,2,3], [])`.  In the
code the length prefix is `len(P) + 2 = 5`, but `get_resp` then reads
`message_length = 5` further bytes — not `message_length - 2` — so the
frame's own 3 payload bytes are insufficient and no payload is ever
returned (`none`). -/
theorem C1_roundtrip_counterexample :
    frame [1, 2, 3] = [5, 0, 1, 2, 3] ∧ get_resp (frame [1, 2, 3]) = none := by
  constructor <;> rfl

/-- Claim C1, amended: for every payload `P` with `len(P) + 2`
representable in 2 bytes, `_send_cmd` encodes a little-endian length
prefix equal to `len(P) + 2`; but `get_resp` reads the 2-byte prefix and
then exactly `length` (not `length - 2`) further bytes, so unframing the
frame followed by any further stream data `s` (at least 2 bytes of it)
yields `P` plus the next 2 stream bytes — overshooting `P` by exactly
two bytes instead of recovering it exactly. -/
theorem C1_framing_amended (p s : List Nat) (hp : p.length + 2 < 65536)
    (hs : 2 ≤ s.length) :
    frame p = (p.length + 2) % 256 :: (p.length + 2) / 256 :: p
    ∧ (p.length + 2) % 256 + 256 * ((p.length + 2) / 256) = p.length + 2
    ∧ get_resp (frame p ++ s) = some (p ++ s.take 2, s.drop 2) := by
  have hdiv : (p.length + 2) / 256 < 256 := Nat.div_lt_of_lt_mul (by omega)
  have hmod : (p.length + 2) / 256 % 256 = (p.length + 2) / 256 :=
    Nat.mod_eq_of_lt hdiv
  have hdecode : (p.length + 2) % 256 + 256 * ((p.length + 2) / 256)
      = p.length + 2 := Nat.mod_add_div _ 256
  refine ⟨by simp [frame, encodeLE16, hmod], hdecode, ?_⟩
  have hframe : frame p ++ s
      = (p.length + 2) % 256 :: (p.length + 2) / 256 :: (p ++ s) := by
    simp [frame, encodeLE16, hmod]
  rw [hframe]
  rw [get_resp]
  simp only [hdecode]
  rw [if_neg (by simp; omega)]
  have htake : (p ++ s).take (p.length + 2) = p ++ s.take 2 := by
    rw [List.take_append_eq_append_take,
      List.take_of_length_le (by omega)]
    congr 2
    omega
  have hdrop : (p ++ s).drop (p.length + 2) = s.drop 2 := by
    rw [List.drop_append_eq_append_drop,
      List.drop_eq_nil_of_le (by omega)]
    simp only [List.nil_append]
    congr 1
    omega
  rw [htake, hdrop]

/-- Claim C1, witness: concrete instance of the amended theorem at
`P = [7, 8]`, trailing stream `[1, 2, 3]`. -/
theorem C1_framing_witness :
    get_resp (frame [7, 8] ++ [1, 2, 3]) = some ([7, 8, 1, 2], [3]) :=
  (C1_framing_amended [7, 8] [1, 2, 3] (by decide) (by decide)).2.2

/-- Claim C2: the code never verifies the banner/signature.  Even when a
server key is supplied and every possible signature check fails
(`verify` is constantly `false`), a handshake whose status frame is
`"OK"` still produces an encrypted session; moreover the handshake's
outcome never depends on the verification function at all.  This
contradicts the claim, which requires such a connection attempt to
fail. -/
theorem C2_handshake_skips_verification :
    (∀ (key initial_buf aes_init : List Nat),
      handshake (fun _ _ _ => false) (some key) initial_buf "OK".data aes_init
        = .ok ⟨aes_init.take 32, (aes_init.drop 32).take 16⟩)
    ∧ ∀ (v₁ v₂ : List Nat → List Nat → List Nat → Bool) server_key
        initial_buf status aes_init,
        handshake v₁ server_key initial_buf status aes_init
          = handshake v₂ server_key initial_buf status aes_init := by
  exact ⟨fun _ _ _ => rfl, fun _ _ _ _ _ _ => rfl⟩

/-- Claim C5: in `list_files`, once the device answered `"continue"` and
sent an entry-list frame, a trailing frame different from `"ok"` makes
the operation raise the structured failure
`RuntimeError("PROTOCOL_ERROR", "NOT_OK")` before any entry is yielded —
no entries are exposed as valid, regardless of how cleanly the entry
list would have parsed. -/
theorem C5_trailing_not_ok_fails (files last_resp : List Char)
    (h : last_resp ≠ "ok".data) :
    list_files "continue".data files last_resp
      = .error (.remoteError "PROTOCOL_ERROR".data ["NOT_OK".data]) := by
  unfold list_files
  rw [if_pos rfl, if_pos h]
  rfl

/-- Claim C5, witness: a cleanly parseable entry list with trailing frame
`"no"` still fails with the structured protocol error. -/
theorem C5_witness :
    list_files "continue".data "Dfoo\x00Fbar".data "no".data
      = .error (.remoteError "PROTOCOL_ERROR".data ["NOT_OK".data]) :=
  C5_trailing_not_ok_fails "Dfoo\x00Fbar".data "no".data (by decide)

/-- Claim C7: `raise_error` on any response `"error " ++ t` raises the
structured failure whose code is the first space-separated token after
the `"error"` prefix and whose arguments are the remaining
space-separated tokens in their original order. -/
theorem C7_error_response_parsing (t : List Char) :
    raise_error ("error ".data ++ t)
      = .remoteError ((pySplit ' ' t).headD []) ((pySplit ' ' t).tail) := by
  have hsp : pySplit ' ' ("error ".data ++ t)
      = "error".data :: pySplit ' ' t := by
    have he : "error ".data ++ t = "error".data ++ ' ' :: t := rfl
    rw [he, pySplit_append_sep ' ' "error".data t (by decide)]
  have hpre : List.isPrefixOf "error ".data ("error ".data ++ t) = true :=
    List.isPrefixOf_iff_prefix.mpr (List.prefix_append _ _)
  unfold raise_error
  rw [if_pos hpre, hsp]
  simp

/-! Helper lemmas for the `recv_binary` loop. -/

/-- Once the stream is exhausted while bytes are still owed, every
`recv` returns zero bytes and the loop never terminates, whatever the
fuel. -/
theorem recv_binary_loop_empty_stuck (fuel left : Nat) (acc : List Nat)
    (h : 0 < left) : recv_binary_loop fuel left [] acc = none := by
  induction fuel generalizing acc with
  | zero => rfl
  | succ fuel ih =>
    rw [recv_binary_loop]
    rw [if_neg (by omega)]
    simpa using ih acc

/-- When the stream holds at least `left` bytes, the loop terminates
(within `left < fuel` iterations) having appended exactly the first
`left` stream bytes to the accumulator. -/
theorem recv_binary_loop_complete (fuel : Nat) :
    ∀ (left : Nat) (stream acc : List Nat), left ≤ stream.length →
      left < fuel →
      recv_binary_loop fuel left stream acc
        = some (acc ++ stream.take left, stream.drop left) := by
  induction fuel with
  | zero => intro left stream acc _ h; omega
  | succ fuel ih =>
    intro left stream acc hlen hfuel
    rw [recv_binary_loop]
    by_cases h0 : left = 0
    · subst h0; simp
    · rw [if_neg h0]
      have hm : min 4096 left ≤ stream.length := le_trans (min_le_right _ _) hlen
      have hclen : (stream.take (min 4096 left)).length = min 4096 left := by
        rw [List.length_take]
        omega
      have hmpos : 0 < min 4096 left := by omega
      rw [hclen]
      rw [ih (left - min 4096 left) (stream.drop (min 4096 left))
        (acc ++ stream.take (min 4096 left))
        (by rw [List.length_drop]; omega) (by omega)]
      have htake : stream.take (min 4096 left)
          ++ (stream.drop (min 4096 left)).take (left - min 4096 left)
          = stream.take left := by
        rw [← List.take_add]
        congr 1
        omega
      have hdrop : (stream.drop (min 4096 left)).drop (left - min 4096 left)
          = stream.drop left := by
        rw [List.drop_drop]
        congr 1
        omega
      rw [List.append_assoc, htake, hdrop]

/-- Claim C3.  First conjunct (true half of the claim): whenever the
stream supplies at least `size` bytes, the `recv_binary` loop terminates
returning exactly the first `size` bytes, reading in chunks of at most
4096 bytes (the chunk bound is part of the loop's definition).  Second
conjunct: the spec's own example — header `binary image/png 5` with
exactly 5 bytes yields `("image/png", those 5 bytes)`.  Third conjunct
(the failing half): with only 3 bytes before the stream closes, the loop
never terminates — for every fuel bound the result is "not finished"
(`Option.none` inside `.ok`) — so the code neither returns a truncated
buffer nor raises the fatal transport error the claim requires; it
busy-loops on zero-length reads forever. -/
theorem C3_recv_binary_short_read :
    (∀ (size : Nat) (stream : List Nat), size ≤ stream.length →
      recv_binary_loop (size + 1) size stream []
        = some (stream.take size, stream.drop size))
    ∧ recv_binary 6 "binary image/png 5".data [10, 20, 30, 40, 50, 60]
        = .ok (some (("image/png".data, [10, 20, 30, 40, 50]), [60]))
    ∧ ∀ fuel, recv_binary fuel "binary image/png 5".data [10, 20, 30]
        = .ok none := by
  refine ⟨?_, by rfl, ?_⟩
  · intro size stream h
    simpa using recv_binary_loop_complete (size + 1) size stream [] h
      (Nat.lt_succ_self size)
  · intro fuel
    have he : recv_binary fuel "binary image/png 5".data [10, 20, 30]
        = .ok ((recv_binary_loop fuel 5 [10, 20, 30] []).map
            (fun r => (("image/png".data, r.1), r.2))) := rfl
    rw [he]
    have hl : recv_binary_loop fuel 5 [10, 20, 30] [] = none := by
      match fuel with
      | 0 => rfl
      | fuel + 1 =>
        rw [recv_binary_loop]
        rw [if_neg (by omega)]
        exact recv_binary_loop_empty_stuck fuel 2 _ (by omega)
    rw [hl]
    rfl

/-- Claim C3, witness: concrete instance of the first conjunct — a
2-byte request against a 3-byte stream returns the first 2 bytes and
leaves the third. -/
theorem C3_witness :
    recv_binary_loop 3 2 [5, 6, 7] [] = some ([5, 6], [7]) :=
  (C3_recv_binary_short_read.1 2 [5, 6, 7] (by decide)).trans (by decide)

/-! Helper lemma for the `quit_raw_mode` resynchronization loop. -/

/-- Once the zero-byte count reaches 9 (cumulatively: `sync + k ≥ 9`
after `k` further zero bytes), the first subsequent nonzero byte breaks
the loop, leaving exactly the bytes after it. -/
theorem quit_raw_sync_break (b : Nat) (rest : List Nat) (hb : 0 < b) :
    ∀ (k sync : Nat), 9 ≤ sync + k →
      quit_raw_sync sync (List.replicate k 0 ++ b :: rest) = some rest := by
  intro k
  induction k with
  | zero =>
    intro sync h
    rw [List.replicate_zero, List.nil_append, quit_raw_sync]
    rw [if_pos (by omega), if_pos hb]
  | succ k ih =>
    intro sync h
    rw [List.replicate_succ, List.cons_append, quit_raw_sync]
    by_cases h8 : sync > 8
    · rw [if_pos h8, if_neg (by omega)]
      exact ih sync (by omega)
    · rw [if_neg h8, if_pos rfl]
      exact ih (sync + 1) (by omega)

/-- Claim C4, counterexample.  The claim says exactly 8 consecutive zero
bytes followed by a nonzero byte complete resynchronization, after which
one framed response is read: on the stream
`8 × 0x00, 0x01, [0x02, 0x00, "ok"]` it predicts the framed reply
`some (.ok "ok")`.  The code's loop requires `sync > 8`, i.e. at least
9 zero bytes, before a nonzero byte can break it, so here it consumes
the entire stream — including the frame — without breaking, and no
framed response is ever produced (`none`). -/
theorem C4_resync_counterexample :
    quit_raw_mode [0, 0, 0, 0, 0, 0, 0, 0, 1, 2, 0, 111, 107] = none := by
  rfl

/-- Claim C4, amended: once strictly more than 8 zero bytes — at least
9, and the count is cumulative, never reset by earlier nonzero bytes —
have been observed, the first subsequent nonzero byte completes
resynchronization, and exactly one ordinary framed response is then
read from the remaining bytes and interpreted as ok/error. -/
theorem C4_resync_amended (k b : Nat) (rest : List Nat) (hk : 9 ≤ k)
    (hb : 0 < b) :
    quit_raw_sync 0 (List.replicate k 0 ++ b :: rest) = some rest
    ∧ quit_raw_mode (List.replicate k 0 ++ b :: rest)
        = read_framed_reply rest := by
  have h := quit_raw_sync_break b rest hb k 0 (by omega)
  exact ⟨h, by rw [quit_raw_mode, h]⟩

/-- Claim C4, witness: 9 zero bytes, the nonzero byte 1, then the framed
reply `[2, 0] ++ "ok"`, which the subsequent framed read interprets as
success. -/
theorem C4_witness :
    quit_raw_mode (List.replicate 9 0 ++ 1 :: ([2, 0, 111, 107] : List Nat))
        = read_framed_reply [2, 0, 111, 107]
    ∧ read_framed_reply [2, 0, 111, 107] = some (.ok "ok".data) :=
  ⟨(C4_resync_amended 9 1 [2, 0, 111, 107] (by decide) (by decide)).2, by rfl⟩

/-! Helper lemmas for the `upload_stream` send loop. -/

/-- If the chunks before the first zero-length read carry fewer than
`length - sent` bytes, the send loop hits a zero-length read while
`sent < length` and raises `RobotError("Upload file error")`. -/
theorem send_loop_short (length : Nat) :
    ∀ (chunks : List (List Nat)) (sent : Nat),
      sent + (((chunks.takeWhile (fun c => !c.isEmpty)).map List.length).sum)
          < length →
      send_loop length sent chunks
        = .error (.robotError "Upload file error".data) := by
  intro chunks
  induction chunks with
  | nil =>
    intro sent h
    rw [send_loop, if_pos (by simpa using h)]
  | cons c rest ih =>
    intro sent h
    match c with
    | [] =>
      rw [send_loop]
      rw [if_pos (by simp at h; omega)]
      rfl
    | x :: xs =>
      have hsum : ((((x :: xs) :: rest).takeWhile
            (fun c => !c.isEmpty)).map List.length).sum
          = (x :: xs).length
            + (((rest.takeWhile (fun c => !c.isEmpty)).map List.length).sum) := by
        rw [List.takeWhile_cons_of_pos (by simp)]
        simp
      rw [hsum] at h
      rw [send_loop, if_pos (by omega)]
      rw [if_neg (by simp)]
      exact ih (sent + (x :: xs).length) (by omega)

/-- If every chunk is nonempty and the chunks carry at least
`length - sent` bytes, the send loop exits normally. -/
theorem send_loop_complete (length : Nat) :
    ∀ (chunks : List (List Nat)) (sent : Nat),
      (∀ c ∈ chunks, c ≠ []) →
      length ≤ sent + ((chunks.map List.length).sum) →
      ∃ n, send_loop length sent chunks = .ok n := by
  intro chunks
  induction chunks with
  | nil =>
    intro sent _ h
    refine ⟨sent, ?_⟩
    rw [send_loop, if_neg (by simp at h; omega)]
  | cons c rest ih =>
    intro sent hne h
    by_cases hs : sent < length
    · have hc : c ≠ [] := hne c (List.mem_cons_self c rest)
      have hcl : c.length ≠ 0 := by simpa using hc
      rw [send_loop, if_pos hs, if_neg hcl]
      exact ih (sent + c.length)
        (fun d hd => hne d (List.mem_cons_of_mem c hd))
        (by simp at h ⊢; omega)
    · refine ⟨sent, ?_⟩
      rw [send_loop, if_neg hs]

/-- Claim C6: an `upload_stream` whose negotiation returned `"continue"`
aborts with the fatal `RobotError("Upload file error")` whenever the
source yields a zero-length read before `length` cumulative bytes have
been sent (the chunks before the first empty read — and an exhausted
source reads as empty forever — total fewer than `length` bytes).  This
holds for any progress callback and any final response frame, so no
`"ok"` completion is possible. -/
theorem C6_premature_source_exhaustion (chunks : List (List Nat))
    (length : Nat) (has_callback : Bool) (final_ret : List Nat)
    (_hpos : 0 < length)
    (hshort : (((chunks.takeWhile (fun c => !c.isEmpty)).map List.length).sum)
        < length) :
    upload_stream "continue".data chunks length has_callback final_ret
      = .error (.robotError "Upload file error".data) := by
  unfold upload_stream
  rw [if_neg (by simp)]
  rw [send_loop_short length chunks 0 (by omega)]

/-- Claim C6, witness: source chunks `[1,2]`, `[3]` (then exhausted)
against a declared length of 5. -/
theorem C6_witness :
    upload_stream "continue".data [[1, 2], [3]] 5 true [111, 107]
      = .error (.robotError "Upload file error".data) :=
  C6_premature_source_exhaustion [[1, 2], [3]] 5 true [111, 107]
    (by decide) (by decide)

/-- Claim C9: with `progress_callback=None`, a negotiation that returned
`"continue"` and a source that supplies the declared length, the upload
still never completes: line 197 invokes the callback outside the
`if progress_callback` guard, so calling `None` raises `TypeError`, and
this happens before the final response frame is read (the result is the
same `TypeError` for every possible final frame `final_ret`). -/
theorem C9_no_callback_type_error (chunks : List (List Nat)) (length : Nat)
    (final_ret : List Nat) (hne : ∀ c ∈ chunks, c ≠ [])
    (hlen : length ≤ (chunks.map List.length).sum) :
    upload_stream "continue".data chunks length false final_ret
      = .error .typeError := by
  obtain ⟨n, hn⟩ := send_loop_complete length chunks 0 hne (by omega)
  unfold upload_stream
  rw [if_neg (by simp), hn]
  rfl

/-- Claim C9, witness: a 3-byte source uploading a declared 3 bytes with
no progress callback fails with `TypeError` even though the device would
answer `b"ok"`. -/
theorem C9_witness :
    upload_stream "continue".data [[1, 2, 3]] 3 false [111, 107]
      = .error .typeError :=
  C9_no_callback_type_error [[1, 2, 3]] 3 [111, 107] (by decide) (by decide)

/-! Helper lemmas for `fetch_publickey`. -/

/-- If every attempt in the retry window yields nothing, the recursion
exhausts its retries and raises `RuntimeError("TIMEOUT", ...)`. -/
theorem fetch_publickey_from_all_none (attempts : Nat → Option (List Char)) :
    ∀ (retry idx : Nat),
      (∀ i, idx ≤ i → i ≤ idx + retry → attempts i = none) →
      fetch_publickey_from attempts idx retry
        = .error (.remoteError "TIMEOUT".data ["fetch public key".data]) := by
  intro retry
  induction retry with
  | zero =>
    intro idx h
    rw [fetch_publickey_from, h idx (le_refl idx) (by omega)]
  | succ r ih =>
    intro idx h
    rw [fetch_publickey_from, h idx (le_refl idx) (by omega)]
    exact ih (idx + 1) (fun i h1 h2 => h i (by omega) (by omega))

/-- The recursion returns the response of the first attempt (within the
retry window) that yields one. -/
theorem fetch_publickey_from_first_some (attempts : Nat → Option (List Char)) :
    ∀ (retry idx i : Nat) (k : List Char), idx ≤ i → i ≤ idx + retry →
      (∀ j, idx ≤ j → j < i → attempts j = none) → attempts i = some k →
      fetch_publickey_from attempts idx retry = .ok k := by
  intro retry
  induction retry with
  | zero =>
    intro idx i k h1 h2 _ hk
    have : idx = i := by omega
    subst this
    rw [fetch_publickey_from, hk]
  | succ r ih =>
    intro idx i k h1 h2 hj hk
    by_cases he : idx = i
    · subst he
      rw [fetch_publickey_from, hk]
    · rw [fetch_publickey_from, hj idx (le_refl idx) (by omega)]
      exact ih (idx + 1) i k (by omega) (by omega)
        (fun j ha hb => hj j (by omega) hb) hk

/-- The recursion only ever consults attempts `idx .. idx + retry`. -/
theorem fetch_publickey_from_window (a₁ a₂ : Nat → Option (List Char)) :
    ∀ (retry idx : Nat), (∀ i, idx ≤ i → i ≤ idx + retry → a₁ i = a₂ i) →
      fetch_publickey_from a₁ idx retry = fetch_publickey_from a₂ idx retry := by
  intro retry
  induction retry with
  | zero =>
    intro idx h
    rw [fetch_publickey_from, fetch_publickey_from,
      h idx (le_refl idx) (by omega)]
  | succ r ih =>
    intro idx h
    rw [fetch_publickey_from, fetch_publickey_from,
      h idx (le_refl idx) (by omega)]
    cases a₂ idx with
    | some resp => rfl
    | none => exact ih (idx + 1) (fun i h1 h2 => h i (by omega) (by omega))

/-- Claim C8: `fetch_publickey` (default `retry=20`) performs at most 21
request attempts in total — its outcome depends only on attempts
0 through 20 (third conjunct); it returns the key of the first attempt
that yields a validated response (second conjunct); and if all 21
attempts yield nothing it fails fatally with
`RuntimeError("TIMEOUT", "fetch public key")` (first conjunct). -/
theorem C8_fetch_publickey_retries (attempts : Nat → Option (List Char)) :
    ((∀ i, i ≤ 20 → attempts i = none) →
      fetch_publickey attempts
        = .error (.remoteError "TIMEOUT".data ["fetch public key".data]))
    ∧ (∀ i k, i ≤ 20 → (∀ j, j < i → attempts j = none) →
        attempts i = some k → fetch_publickey attempts = .ok k)
    ∧ ∀ attempts₂, (∀ i, i ≤ 20 → attempts i = attempts₂ i) →
        fetch_publickey attempts = fetch_publickey attempts₂ := by
  refine ⟨?_, ?_, ?_⟩
  · intro h
    exact fetch_publickey_from_all_none attempts 20 0
      (fun i h1 h2 => h i (by omega))
  · intro i k hi hj hk
    exact fetch_publickey_from_first_some attempts 20 0 i k (by omega)
      (by omega) (fun j _ hb => hj j hb) hk
  · intro attempts₂ h
    exact fetch_publickey_from_window attempts attempts₂ 20 0
      (fun i _ h2 => h i (by omega))

/-- Claim C8, witness: with the first two attempts timing out and the
third answering, `fetch_publickey` returns the third attempt's key. -/
theorem C8_witness :
    fetch_publickey (fun i => if i = 2 then some ['K'] else none)
      = .ok ['K'] :=
  (C8_fetch_publickey_retries (fun i => if i = 2 then some ['K'] else none)).2.1
    2 ['K'] (by decide) (by decide) (by rfl)

/-! Helper lemma for `_parse_response`. -/

/-- `bytes.split(b"\x00", 1)` finds no split point exactly when no NUL
byte occurs. -/
theorem splitOnceNul_eq_none (l : List Nat) (h : 0 ∉ l) :
    splitOnceNul l = none := by
  induction l with
  | nil => rfl
  | cons b rest ih =>
    have hb : b ≠ 0 := fun e => h (by simp [e])
    have hr : (0 : Nat) ∉ rest := fun hm => h (List.mem_cons_of_mem _ hm)
    cases b with
    | zero => exact absurd rfl hb
    | succ n => rw [splitOnceNul, ih hr]; rfl

/-- Claim C10: a UDP reply datagram whose bytes after the first two
contain no NUL separator makes `_parse_response` raise `ValueError`
(the single-part split cannot be unpacked into payload and signature),
and — since `make_request`'s receive loop calls it without any
try/except — the exception propagates out of `make_request` instead of
the malformed reply being discarded.  The response code of the datagram
is irrelevant: the split precedes the code check, so this holds for
every `resp_code`, matching or not. -/
theorem C10_malformed_datagram_propagates
    (json_loads : List Nat → Option (List Char))
    (validate_self : List Char → List Nat → List Nat → Bool)
    (validate_remote : List Nat → List Nat → Bool)
    (code_response_rsa_key : Nat) (d : List Nat) (rest : List (List Nat))
    (resp_code : Nat) (h : 0 ∉ d.drop 2) :
    make_request json_loads validate_self validate_remote
        code_response_rsa_key (d :: rest) resp_code
      = .error .valueError := by
  have hp : parse_response json_loads validate_self validate_remote
      code_response_rsa_key d resp_code = .error .valueError := by
    unfold parse_response
    rw [splitOnceNul_eq_none _ h]
  rw [make_request, hp]

/-- Claim C10, witness: the datagram `[9, 9, 1, 2, 3]` has response code
9 ≠ expected 7 and no NUL after the first two bytes; `make_request`
still fails with `ValueError` instead of discarding it and waiting. -/
theorem C10_witness :
    make_request (fun _ => none) (fun _ _ _ => false) (fun _ _ => false) 0
        [[9, 9, 1, 2, 3]] 7 = .error .valueError :=
  C10_malformed_datagram_propagates (fun _ => none) (fun _ _ _ => false)
    (fun _ _ => false) 0 [9, 9, 1, 2, 3] [] 7 (by decide)

end FluxClient
